import Mathlib

/-!
# Verification of the extraction-and-deduplication pipeline of `monitor.py`

A shallow embedding of the core of `src/monitor.py` (class `ArtMonitorV2`):
Python strings are Lean `String`s manipulated through their `List Char`
representation, Python dicts are association lists in insertion order, and
fallible code returns `Except PyError`.  Ambient inputs of the script
(`datetime.now()`, file contents, SMTP outcomes) are explicit parameters.
-/

/-- Errors a run of the Python script can raise.  `nameError` is raised by the
  interpreter when an unbound name is referenced, `ioError` when a file cannot
  be read, `jsonDecodeError` when its contents are not valid JSON. -/
inductive PyError where
  | nameError
  | ioError
  | jsonDecodeError
  deriving DecidableEq, Repr

/-! ## Python string primitives -/

/-- Python `str.lower` on one character, restricted to the ASCII fragment that
  the monitor's keyword tables use. -/
def lowerChar (c : Char) : Char :=
  if 'A' ≤ c ∧ c ≤ 'Z' then Char.ofNat (c.toNat + 32) else c

/-- Python `s.lower()` (ASCII fragment). -/
def pyLower (s : String) : String :=
  ⟨s.data.map lowerChar⟩

/-- `needle` occurs as a contiguous sublist of `hay` — the semantics of
  Python's `needle in hay` on strings.  The empty needle matches anything. -/
def listContains (hay needle : List Char) : Bool :=
  if needle.isPrefixOf hay then true
  else
    match hay with
    | [] => false
    | _ :: t => listContains t needle

/-- Python `needle in hay` for strings. -/
def pyContains (hay needle : String) : Bool :=
  listContains hay.data needle.data

/-- Python `s.startswith(pre)`. -/
def pyStartsWith (s pre : String) : Bool :=
  pre.data.isPrefixOf s.data

/-- One step of Python `str.replace`: replaces non-overlapping occurrences of
  `pat` left to right.  The fuel argument bounds the recursion; `s.length`
  steps always suffice because every step consumes at least one character. -/
def replaceAllAux (pat rep : List Char) : Nat → List Char → List Char
  | _, [] => []
  | 0, s => s
  | fuel + 1, c :: rest =>
    if pat ≠ [] ∧ pat.isPrefixOf (c :: rest) then
      rep ++ replaceAllAux pat rep fuel ((c :: rest).drop pat.length)
    else
      c :: replaceAllAux pat rep fuel rest

/-- Python `s.replace(pat, rep)` (all occurrences). -/
def pyReplace (s pat rep : String) : String :=
  ⟨replaceAllAux pat.data rep.data s.data.length s.data⟩

/-- Python `s.rstrip('/')`: drops every trailing `'/'`. -/
def pyRstripSlash (s : String) : String :=
  ⟨(s.data.reverse.dropWhile (fun c => c = '/')).reverse⟩

/-! Bridging `listContains` with Mathlib's `List.IsInfix`. -/

theorem listContains_iff_isInfix (hay needle : List Char) :
    listContains hay needle = true ↔ needle <:+: hay := by
  induction hay with
  | nil =>
    rw [listContains]
    constructor
    · intro h
      rcases needle with _ | ⟨c, t⟩
      · exact List.infix_rfl
      · simp [List.isPrefixOf] at h
    · intro h
      rcases List.infix_nil.mp h with rfl
      simp [List.isPrefixOf]
  | cons c t ih =>
    rw [listContains]
    by_cases hp : needle.isPrefixOf (c :: t)
    · simp only [hp, if_true, true_iff]
      exact ( List.isPrefixOf_iff_prefix.mp hp).isInfix
    · simp only [hp, if_false, Bool.false_eq_true]
      rw [ih, List.infix_cons_iff]
      constructor
      · exact Or.inr
      · rintro (h | h)
        · exact absurd ( List.isPrefixOf_iff_prefix.mpr h) hp
        · exact h

theorem listContains_map (f : Char → Char) {hay needle : List Char}
    (h : listContains hay needle = true) :
    listContains (hay.map f) (needle.map f) = true := by
  rw [listContains_iff_isInfix] at h ⊢
  exact h.map f

/-! ## Data model -/

/-- A candidate listing, as built by `extract_items_from_html` and enriched in
  `search_site` (lines 257-263): `title` and `url` from extraction, `source`,
  `search_term` (display form) and `region` attached after validation. -/
structure Item where
  title : String
  url : String
  search_term : String
  source : String
  region : String
  deriving DecidableEq, Repr

/-- Value stored in `emailed_items` for a reported hash (lines 320-324). -/
structure EmailedMeta where
  date : String
  title : String
  source : String
  deriving DecidableEq, Repr

/-- Value stored in `active_items` for a seen hash (lines 329-336). -/
structure ActiveMeta where
  title : String
  url : String
  source : String
  search_term : String
  region : String
  last_seen : String
  deriving DecidableEq, Repr

/-- The persisted `emailed_items` dict: an association list in insertion
  order, the order a Python dict preserves. -/
abbrev EStore : Type := List (String × EmailedMeta)

/-- The `active_items` dict. -/
abbrev AStore : Type := List (String × ActiveMeta)

/-- Python `key in d` for a dict modelled as an association list. -/
def hasKey (store : List (String × α)) (k : String) : Bool :=
  store.any (fun p => p.1 == k)

/-- Python `d[k] = v`: overwrites in place when the key exists, otherwise
  appends (a Python dict keeps insertion order). -/
def dictInsert (store : List (String × α)) (k : String) (v : α) :
    List (String × α) :=
  if hasKey store k then store.map (fun p => if p.1 == k then (k, v) else p)
  else store ++ [(k, v)]

/-- Embeds `get_item_hash` (lines 68-72): the md5 hexdigest of
  `f"{title}_{url}_{search_term}"`.  The digest is used only as an opaque
  dedup key, so the model keeps the hashed string itself as the key. -/
def get_item_hash (item : Item) : String :=
  item.title ++ "_" ++ item.url ++ "_" ++ item.search_term

/-- Embeds `filter_new_items` (lines 311-339), with the two module-level
  dicts passed explicitly and `datetime.now().isoformat()` as `now`.
  For each item in order: compute the hash; when it is not a key of
  `emailed_items`, emit the item and record `(date, truncated title, source)`
  under the hash; always overwrite the hash's entry in `active_items`.
  Returns (new items, final emailed dict, final active dict). -/
def filter_new_items (items : List Item) (emailed : EStore) (active : AStore)
    (now : String) : List Item × EStore × AStore :=
  match items with
  | [] => ([], emailed, active)
  | item :: rest =>
    let h := get_item_hash item
    let isNew := !hasKey emailed h
    let emailed' :=
      if isNew then dictInsert emailed h ⟨now, item.title.take 100, item.source⟩
      else emailed
    let active' := dictInsert active h
      ⟨item.title, item.url, item.source, item.search_term, item.region, now⟩
    let r := filter_new_items rest emailed' active' now
    ((if isNew then [item] else []) ++ r.1, r.2.1, r.2.2)

/-! ### Dedup lemmas -/

theorem hasKey_append (s t : List (String × α)) (k : String) :
    hasKey (s ++ t) k = (hasKey s k || hasKey t k) := by
  simp [hasKey, List.any_append]

theorem hasKey_dictInsert (s : List (String × α)) (k : String) (v : α)
    (k' : String) (h : hasKey s k' = true) :
    hasKey (dictInsert s k v) k' = true := by
  unfold dictInsert
  by_cases hk : hasKey s k = true
  · simp only [hk, if_true]
    simp only [hasKey, List.any_map, List.any_eq_true, Function.comp] at h ⊢
    obtain ⟨p, hp, hpk⟩ := h
    refine ⟨p, hp, ?_⟩
    by_cases hpk' : p.1 == k
    · simp only [hpk', if_true]
      rw [beq_iff_eq] at hpk' hpk ⊢
      rw [← hpk', hpk]
    · simp [hpk', hpk]
  · rw [if_neg hk, hasKey_append, h, Bool.true_or]

theorem hasKey_self_dictInsert (s : List (String × α)) (k : String) (v : α) :
    hasKey (dictInsert s k v) k = true := by
  unfold dictInsert
  by_cases hk : hasKey s k = true
  · simp only [hk, if_true]
    simp only [hasKey, List.any_map, List.any_eq_true, Function.comp] at hk ⊢
    obtain ⟨p, hp, hpk⟩ := hk
    exact ⟨p, hp, by simp [hpk]⟩
  · rw [if_neg hk, hasKey_append]
    simp [hasKey]

/-- Keys of the emailed dict only grow along a run of `filter_new_items`. -/
theorem filter_new_items_hasKey_mono (items : List Item) :
    ∀ (emailed : EStore) (active : AStore) (now k : String),
      hasKey emailed k = true →
      hasKey (filter_new_items items emailed active now).2.1 k = true := by
  induction items with
  | nil => intro emailed active now k h; exact h
  | cons item rest ih =>
    intro emailed active now k h
    rw [filter_new_items]
    dsimp only
    apply ih
    by_cases hn : hasKey emailed (get_item_hash item) = true
    · simp [hn, h]
    · simp only [Bool.not_eq_true] at hn
      simp only [hn, Bool.not_false, if_true]
      exact hasKey_dictInsert _ _ _ _ h

/-- An item emitted by `filter_new_items` was not in the emailed dict at the
  start of the run. -/
theorem filter_new_items_output_fresh (items : List Item) :
    ∀ (emailed : EStore) (active : AStore) (now : String) (item : Item),
      item ∈ (filter_new_items items emailed active now).1 →
      hasKey emailed (get_item_hash item) = false := by
  induction items with
  | nil => intro emailed active now item hmem; simp [filter_new_items] at hmem
  | cons it rest ih =>
    intro emailed active now item hmem
    rw [filter_new_items] at hmem
    dsimp only at hmem
    by_cases hn : hasKey emailed (get_item_hash it) = true
    · simp only [hn, Bool.not_true, if_false, List.nil_append] at hmem
      exact ih _ _ _ _ hmem
    · simp only [Bool.not_eq_true] at hn
      simp only [hn, Bool.not_false, if_true, List.singleton_append,
        List.mem_cons] at hmem
      rcases hmem with rfl | hmem
      · exact hn
      · have hfresh := ih _ _ _ _ hmem
        by_cases hk : hasKey emailed (get_item_hash item) = true
        · rw [hasKey_dictInsert _ _ _ _ hk] at hfresh
          exact absurd hfresh (by simp)
        · simp only [Bool.not_eq_true] at hk
          exact hk

/-- After a run of `filter_new_items`, the hash of every input item is a key
  of the resulting emailed dict. -/
theorem filter_new_items_records_all (items : List Item) :
    ∀ (emailed : EStore) (active : AStore) (now : String) (item : Item),
      item ∈ items →
      hasKey (filter_new_items items emailed active now).2.1
        (get_item_hash item) = true := by
  induction items with
  | nil => intro emailed active now item hmem; simp at hmem
  | cons it rest ih =>
    intro emailed active now item hmem
    rw [filter_new_items]
    dsimp only
    rcases List.mem_cons.mp hmem with rfl | hmem
    · apply filter_new_items_hasKey_mono
      by_cases hn : hasKey emailed (get_item_hash item) = true
      · simp only [hn, Bool.not_true, Bool.false_eq_true, if_false]
      · simp only [Bool.not_eq_true] at hn
        simp only [hn, Bool.not_false, if_true]
        exact hasKey_self_dictInsert _ _ _
    · exact ih _ _ _ _ hmem

/-- The new-items output of `filter_new_items` is a subset of its input. -/
theorem filter_new_items_output_subset (items : List Item) :
    ∀ (emailed : EStore) (active : AStore) (now : String) (item : Item),
      item ∈ (filter_new_items items emailed active now).1 →
      item ∈ items := by
  induction items with
  | nil => intro emailed active now item hmem; simp [filter_new_items] at hmem
  | cons it rest ih =>
    intro emailed active now item hmem
    rw [filter_new_items] at hmem
    dsimp only at hmem
    rw [List.mem_append] at hmem
    rcases hmem with hmem | hmem
    · by_cases hn : hasKey emailed (get_item_hash it) = true
      · simp [hn] at hmem
      · simp only [Bool.not_eq_true] at hn
        simp only [hn, Bool.not_false, if_true, List.mem_singleton] at hmem
        exact hmem ▸ List.mem_cons_self it rest
    · exact List.mem_cons_of_mem _ (ih _ _ _ _ hmem)

/-! ### Sample data for instantiating universally quantified theorems -/

/-- A concrete validated listing. -/
def sampleItem : Item :=
  { title := "Hans Wegner PP550 Peacock Chair"
    url := "https://example.com/listing/1"
    search_term := "Wegner + PP550"
    source := "Lauritz.com"
    region := "DK" }

/-- A concrete emailed-store entry for `sampleItem`. -/
def sampleMeta : EmailedMeta :=
  { date := "2026-10-01T00:00:00"
    title := "Hans Wegner PP550 Peacock Chair"
    source := "Lauritz.com" }

/-! ### C2 -/

/-- C2: for every input list and seen store, no listing whose identity hash is
  already a key of the emailed store at the start of `filter_new_items`
  appears among the emitted new items; consequently a second run of
  `filter_new_items` on the same input, against the store produced by the
  first run, emits zero new items. -/
theorem filter_new_items_no_rereport :
    (∀ (items : List Item) (emailed : EStore) (active : AStore) (now : String)
        (item : Item),
        hasKey emailed (get_item_hash item) = true →
        item ∉ (filter_new_items items emailed active now).1)
    ∧ (∀ (items : List Item) (emailed : EStore) (active active2 : AStore)
        (now now2 : String),
        (filter_new_items items (filter_new_items items emailed active now).2.1
          active2 now2).1 = []) := by
  constructor
  · intro items emailed active now item h hmem
    rw [filter_new_items_output_fresh items emailed active now item hmem] at h
    exact absurd h (by simp)
  · intro items emailed active active2 now now2
    rw [List.eq_nil_iff_forall_not_mem]
    intro item hmem
    have h1 := filter_new_items_output_fresh items _ active2 now2 item hmem
    have h2 := filter_new_items_output_subset items _ active2 now2 item hmem
    have h3 := filter_new_items_records_all items emailed active now item h2
    rw [h3] at h1
    exact absurd h1 (by simp)

/-- Closed witness for C2: a store already holding `sampleItem`'s hash never
  re-emits `sampleItem`. -/
theorem filter_new_items_no_rereport_witness :
    sampleItem ∉ (filter_new_items [sampleItem]
      [(get_item_hash sampleItem, sampleMeta)] [] "2026-10-12T09:00:00").1 :=
  filter_new_items_no_rereport.1 [sampleItem]
    [(get_item_hash sampleItem, sampleMeta)] [] "2026-10-12T09:00:00" sampleItem
    (by decide)

/-! ### C6 -/

/-- C6: when a listing's identity hash is not yet a key of the emailed store,
  `filter_new_items` applied to the two-element batch `[L, L]` emits the
  listing exactly once — identity hashing dedupes within a batch. -/
theorem filter_new_items_pair_dedup (L : Item) (emailed : EStore)
    (active : AStore) (now : String)
    (h : hasKey emailed (get_item_hash L) = false) :
    (filter_new_items [L, L] emailed active now).1 = [L] := by
  simp [filter_new_items, h, hasKey_self_dictInsert]

/-- Closed witness for C6 at `sampleItem` and the empty store. -/
theorem filter_new_items_pair_dedup_witness :
    (filter_new_items [sampleItem, sampleItem] [] [] "2026-10-12T09:00:00").1
      = [sampleItem] :=
  filter_new_items_pair_dedup sampleItem [] [] "2026-10-12T09:00:00" (by decide)

/-! ## Validator -/

/-- A search term: either an artist name (a plain string in the config) or a
  furniture search (the config's dict with a `terms` list). -/
inductive SearchTerm where
  | artist (name : String)
  | furniture (terms : List String)
  deriving DecidableEq, Repr

/-- One furniture sub-term check of `validate_result` (lines 86-88): the
  lowered term occurs in the lowered title directly, or with its spaces
  removed, or with its hyphens removed. -/
def termMatches (title_lower : String) (term : String) : Bool :=
  let term_lower := pyLower term
  pyContains title_lower term_lower ||
    pyContains title_lower (pyReplace term_lower " " "") ||
    pyContains title_lower (pyReplace term_lower "-" "")

/-- Embeds `validate_result` (lines 74-104).  For a furniture term with at
  least two sub-terms, the loop at lines 83-90 returns False as soon as one
  sub-term fails all three checks, True when none does: all sub-terms must
  match.  With fewer than two sub-terms (line 93) the single term is checked
  and an empty list returns False.  For an artist term (lines 96-104) both
  branches of the `' ' in search_term` test perform the same case-insensitive
  substring check. -/
def validate_result (item_title : String) (search_term : SearchTerm) : Bool :=
  let title_lower := pyLower item_title
  match search_term with
  | .furniture terms =>
    if terms.length ≥ 2 then
      terms.all (fun term => termMatches title_lower term)
    else
      match terms with
      | [] => false
      | t :: _ => pyContains title_lower (pyLower t)
  | .artist name =>
    let search_lower := pyLower name
    if pyContains name " " then pyContains title_lower search_lower
    else pyContains title_lower search_lower

/-! ### C5 -/

/-- C5: for a composite term with at least two sub-terms, `validate_result`
  accepts a title iff every sub-term matches the lowered title — directly or
  with its spaces or hyphens removed — an AND across sub-terms; in
  particular `["Wegner", "PP550"]` accepts
  `"Hans Wegner PP550 Peacock Chair"` and rejects `"Hans Wegner PP101"`. -/
theorem validate_result_multiterm :
    (∀ (title : String) (terms : List String), terms.length ≥ 2 →
        (validate_result title (.furniture terms) = true ↔
          ∀ term ∈ terms, termMatches (pyLower title) term = true))
    ∧ validate_result "Hans Wegner PP550 Peacock Chair"
        (.furniture ["Wegner", "PP550"]) = true
    ∧ validate_result "Hans Wegner PP101"
        (.furniture ["Wegner", "PP550"]) = false := by
  refine ⟨?_, by decide, by decide⟩
  intro title terms h2
  simp only [validate_result]
  rw [if_pos h2]
  exact List.all_eq_true

/-- Closed witness for C5's universal part at the spec's example inputs. -/
theorem validate_result_multiterm_witness :
    validate_result "Hans Wegner PP550 Peacock Chair"
        (.furniture ["Wegner", "PP550"]) = true ↔
      ∀ term ∈ ["Wegner", "PP550"],
        termMatches (pyLower "Hans Wegner PP550 Peacock Chair") term = true :=
  validate_result_multiterm.1 "Hans Wegner PP550 Peacock Chair"
    ["Wegner", "PP550"] (by decide)

/-! ### C9 -/

/-- C9: in multi-term mode an empty term list makes `validate_result` reject
  every candidate title — it fails closed, never vacuously accepts. -/
theorem validate_result_empty_terms (title : String) :
    validate_result title (.furniture []) = false := rfl

/-! ## URL repair -/

/-- Embeds `fix_url` (lines 106-123).  An empty href plays the role of
  Python's falsy `url` (line 108); the `x-webdoc://` prefix is rewritten to
  `https://` (line 113, Python `str.replace`, which is all-occurrence);
  scheme-relative URLs get `https:` prepended; root-relative and
  non-`http`-prefixed URLs are appended to the base URL stripped of trailing
  slashes. -/
def fix_url (url : String) (base_url : String) : Option String :=
  if url = "" then none
  else
    let url1 :=
      if pyStartsWith url "x-webdoc://" then
        pyReplace url "x-webdoc://" "https://"
      else url
    if pyStartsWith url1 "//" then some ("https:" ++ url1)
    else if pyStartsWith url1 "/" then some (pyRstripSlash base_url ++ url1)
    else if !pyStartsWith url1 "http" then
      some (pyRstripSlash base_url ++ "/" ++ url1)
    else some url1

/-- If `s` starts with a pattern whose first character is `c1`, it does not
  start with any pattern whose first character differs. -/
theorem pyStartsWith_false_of_head_ne {s p1 p2 : String} {c1 c2 : Char}
    {t1 t2 : List Char} (hp1 : p1.data = c1 :: t1) (hp2 : p2.data = c2 :: t2)
    (hne : c1 ≠ c2) (h : pyStartsWith s p1 = true) :
    pyStartsWith s p2 = false := by
  have h1' : c1 :: t1 <+: s.data := by
    rw [pyStartsWith, hp1] at h
    exact List.isPrefixOf_iff_prefix.mp h
  rw [pyStartsWith, hp2, ← Bool.not_eq_true]
  intro hcontra
  have h2' : c2 :: t2 <+: s.data := List.isPrefixOf_iff_prefix.mp hcontra
  obtain ⟨u, hu⟩ := h1'
  obtain ⟨v, hv⟩ := h2'
  rw [← hu] at hv
  simp only [List.cons_append] at hv
  injection hv with hc _
  exact hne hc.symm

/-! ### C3 -/

/-- Counterexample for C3 as stated: the root-relative input `/listing/123`
  against base `https://example.com/search` does not resolve to the origin;
  `fix_url` appends to the whole base, giving
  `https://example.com/search/listing/123`. -/
theorem fix_url_counterexample :
    fix_url "/listing/123" "https://example.com/search" ≠
      some "https://example.com/listing/123" := by
  decide

/-- C3 (amended): a root-relative URL is appended to the base URL stripped of
  trailing slashes — the base's own path is kept, not cut back to the origin —
  so base `https://example.com/search` gives
  `https://example.com/search/listing/123` (and a path-less base gives the
  originally claimed result); scheme-relative `//cdn.example.com/x` yields
  `https://cdn.example.com/x`. -/
theorem fix_url_amended :
    (∀ (url base_url : String),
        pyStartsWith url "/" = true → pyStartsWith url "//" = false →
        fix_url url base_url = some (pyRstripSlash base_url ++ url))
    ∧ fix_url "/listing/123" "https://example.com/search"
        = some "https://example.com/search/listing/123"
    ∧ fix_url "/listing/123" "https://example.com"
        = some "https://example.com/listing/123"
    ∧ fix_url "//cdn.example.com/x" "https://example.com/search"
        = some "https://cdn.example.com/x" := by
  refine ⟨?_, by decide, by decide, by decide⟩
  intro url base_url h1 h2
  have hne : ¬url = "" := by
    intro h
    subst h
    exact absurd h1 (by decide)
  have hx : pyStartsWith url "x-webdoc://" = false :=
    pyStartsWith_false_of_head_ne rfl rfl (by decide) h1
  simp [fix_url, hne, hx, h1, h2]

/-- Closed witness for C3's amended universal part. -/
theorem fix_url_amended_witness :
    fix_url "/a" "https://example.com/" =
      some (pyRstripSlash "https://example.com/" ++ "/a") :=
  fix_url_amended.1 "/a" "https://example.com/" (by decide) (by decide)

/-! ## Reporter, delivery and persisted state -/

/-- Embeds `create_email_html` (lines 341-612), parameterised by the run
  day's `datetime.now().weekday()`.  The guard at lines 346-347 returns
  `None` when the item list is empty and the day is not Sunday (weekday 6).
  On every other path execution reaches line 556,
  `for category, term_items in sorted_groups:`, but no statement of the
  function ever binds the name `sorted_groups` — the grouping at lines
  350-364 binds only `grouped`, and the sort announced by the comment at
  line 375 is missing — so Python raises `NameError` before any document can
  be returned; the grouping and the header template built at lines 349-554
  are discarded by the exception. -/
def create_email_html (items : List Item) (weekday : Nat) :
    Except PyError (Option String) :=
  let is_sunday := weekday == 6
  if items.isEmpty && !is_sunday then .ok none
  else .error .nameError

/-- Embeds `send_email` (lines 614-659) as a function of the delivery
  environment: `html = none` returns False at lines 616-618; missing
  credentials return False (lines 624-627); otherwise the SMTP block either
  succeeds (True, lines 650-656) or raises and returns False (lines
  657-659).  `creds_ok` says SENDER_EMAIL and EMAIL_PASSWORD are set,
  `smtp_ok` says the SMTP session succeeded. -/
def send_email (html : Option String) (creds_ok smtp_ok : Bool) : Bool :=
  match html with
  | none => false
  | some _ => if !creds_ok then false else smtp_ok

theorem send_email_false_of_smtp_failure (html : Option String)
    (creds_ok : Bool) : send_email html creds_ok false = false := by
  cases html with
  | none => rfl
  | some s => cases creds_ok <;> rfl

/-- The observable outcome of the reporting tail of `run`: the exception
  that propagated out of it, if any, together with the contents of the
  persisted emailed-items file once the run is over — the file state is
  carried through the exception path too, since an exception merely skips
  the write. -/
structure ReportOutcome where
  raised : Option PyError
  emailedFile : EStore
  deriving DecidableEq, Repr

/-- Embeds the reporting tail of `run` (lines 683-696): filter the new
  items; when there are new items or it is Sunday, build the email and send
  it; `save_emailed_items` — the only write of the persisted emailed-items
  file — runs exactly when `send_email` returned True (lines 693-695).
  Every path records the resulting file contents: the in-memory store when
  the write happened, the unchanged input file when the send failed, when
  there was nothing to report, or when an exception (the `NameError` of
  `create_email_html`) aborted the run before the write. -/
def run_report_phase (emailedFile : EStore) (activeFile : AStore)
    (items : List Item) (weekday : Nat) (creds_ok smtp_ok : Bool)
    (now : String) : ReportOutcome :=
  let r := filter_new_items items emailedFile activeFile now
  let is_sunday := weekday == 6
  if !r.1.isEmpty || is_sunday then
    match create_email_html r.1 weekday with
    | .error e => ⟨some e, emailedFile⟩
    | .ok html =>
      if send_email html creds_ok smtp_ok then ⟨none, r.2.1⟩
      else ⟨none, emailedFile⟩
  else ⟨none, emailedFile⟩

/-- Embeds `load_emailed_items` (lines 42-48): the bare `except` silently
  initialises the empty dict on ANY failure — missing file, unreadable file,
  or invalid JSON.  The parameter is the outcome of opening and parsing the
  persisted file. -/
def load_emailed_items (fileRead : Except PyError EStore) : EStore :=
  match fileRead with
  | .ok store => store
  | .error _ => []

/-! ### C1 -/

/-- C1 (code-bug evidence): with no items on a non-Sunday run
  `create_email_html` returns `None` as the claim states, but with at least
  one item it raises `NameError` (`sorted_groups` is unbound at line 556)
  and never returns an HTML document. -/
theorem create_email_html_name_error :
    create_email_html [sampleItem] 0 = .error .nameError
    ∧ (∀ html : Option String, create_email_html [sampleItem] 0 ≠ .ok html)
    ∧ create_email_html [] 0 = .ok none := by
  refine ⟨rfl, ?_, rfl⟩
  intro html h
  simp [create_email_html] at h

/-! ### C8 -/

/-- C8: when the SMTP send fails, EVERY run — runs that found new items and
  aborted in `create_email_html` included — leaves the persisted
  emailed-items file with its previous contents, because the only write of
  that file sits behind a successful `send_email`; consequently a following
  run loading that file computes exactly the same new items again. -/
theorem run_report_phase_delivery_failure :
    ∀ (emailedFile : EStore) (activeFile : AStore) (items : List Item)
      (weekday : Nat) (creds_ok : Bool) (now : String),
      (run_report_phase emailedFile activeFile items weekday creds_ok false
          now).emailedFile = emailedFile
      ∧ (filter_new_items items
          (run_report_phase emailedFile activeFile items weekday creds_ok
              false now).emailedFile
          activeFile now).1 =
        (filter_new_items items emailedFile activeFile now).1 := by
  intro emailedFile activeFile items weekday creds_ok now
  have hfile : (run_report_phase emailedFile activeFile items weekday
      creds_ok false now).emailedFile = emailedFile := by
    unfold run_report_phase
    dsimp only
    split
    · split
      · rfl
      · rw [send_email_false_of_smtp_failure]
        simp
    · rfl
  exact ⟨hfile, by rw [hfile]⟩

/-- Closed instance of C8 on a run that does find a new item (and hence
  aborts in `create_email_html`): the file is unchanged and the very same
  item is computed as new again. -/
theorem run_report_phase_delivery_failure_witness :
    (run_report_phase [] [] [sampleItem] 0 true false
        "2026-10-12").emailedFile = []
    ∧ (filter_new_items [sampleItem]
        (run_report_phase [] [] [sampleItem] 0 true false
            "2026-10-12").emailedFile
        [] "2026-10-12").1 =
      (filter_new_items [sampleItem] [] [] "2026-10-12").1 :=
  run_report_phase_delivery_failure [] [] [sampleItem] 0 true "2026-10-12"

/-! ### C10 -/

/-- C10: when the emailed-items file is missing, unreadable or corrupt, the
  store silently starts empty, so every previously reported identity hash is
  forgotten and a previously reported item is emitted as new again on that
  run. -/
theorem load_emailed_items_fail_open :
    ∀ (e : PyError) (item : Item) (active : AStore) (now : String),
      load_emailed_items (.error e) = [] ∧
      (filter_new_items [item] (load_emailed_items (.error e)) active now).1
        = [item] := by
  intro e item active now
  refine ⟨rfl, ?_⟩
  simp [filter_new_items, load_emailed_items, hasKey]

/-! ## Status classification (concert-monitor variants) -/

/-- Listing status. -/
inductive Status where
  | Available
  | SoldOut
  | Presale
  deriving DecidableEq, Repr

/-- Modelled from the spec: status classification is not implemented in
  `src/monitor.py` (the art/auction variant of the repository); spec §4.3
  describes it for the Normalizer — "regex search for sold-out/presale
  keyword sets (including non-English equivalents) against full container
  text; first match wins; default is Available" — and §8 names the sold-out
  keywords `"SOLD OUT"` and `"udsolgt"`. -/
def soldOutKeywords : List String := ["sold out", "udsolgt"]

/-- Modelled from the spec: the presale keyword set (spec §4.3, a presale
  keyword with a non-English equivalent). -/
def presaleKeywords : List String := ["presale", "forsalg"]

/-- Modelled from the spec: classify a container's full text; matching is
  the case-insensitive substring search `re.search(..., re.I)` performs.
  The sold-out set is tried first, then the presale set; the default is
  Available. -/
def classify_status (text : String) : Status :=
  if soldOutKeywords.any (fun k => pyContains (pyLower text) k) then .SoldOut
  else if presaleKeywords.any (fun k => pyContains (pyLower text) k) then
    .Presale
  else .Available

/-! ### C4 -/

/-- C4: text containing `SOLD OUT` or `udsolgt` classifies as SoldOut, and
  text matching no sold-out keyword and no presale keyword classifies as
  Available, the default. -/
theorem classify_status_spec :
    (∀ text : String,
        pyContains text "SOLD OUT" = true ∨ pyContains text "udsolgt" = true →
        classify_status text = .SoldOut)
    ∧ (∀ text : String,
        (∀ k ∈ soldOutKeywords, pyContains (pyLower text) k = false) →
        (∀ k ∈ presaleKeywords, pyContains (pyLower text) k = false) →
        classify_status text = .Available) := by
  constructor
  · intro text h
    have hlow : pyContains (pyLower text) "sold out" = true ∨
        pyContains (pyLower text) "udsolgt" = true := by
      rcases h with h | h
      · left
        have h' : listContains text.data ("SOLD OUT").data = true := h
        have hm := listContains_map lowerChar h'
        rw [show ("SOLD OUT").data.map lowerChar = ("sold out").data from by
          decide] at hm
        exact hm
      · right
        have h' : listContains text.data ("udsolgt").data = true := h
        have hm := listContains_map lowerChar h'
        rw [show ("udsolgt").data.map lowerChar = ("udsolgt").data from by
          decide] at hm
        exact hm
    rcases hlow with h | h <;> simp [classify_status, soldOutKeywords, h]
  · intro text hs hp
    have h1 : soldOutKeywords.any (fun k => pyContains (pyLower text) k)
        = false := by
      simp only [List.any_eq_false]
      intro k hk
      simp [hs k hk]
    have h2 : presaleKeywords.any (fun k => pyContains (pyLower text) k)
        = false := by
      simp only [List.any_eq_false]
      intro k hk
      simp [hp k hk]
    simp [classify_status, h1, h2]

/-- Closed witness for C4: a sold-out text and a keyword-free text. -/
theorem classify_status_spec_witness :
    classify_status "Koncerten er SOLD OUT" = .SoldOut
    ∧ classify_status "Billetter til koncerten" = .Available :=
  ⟨classify_status_spec.1 "Koncerten er SOLD OUT" (Or.inl (by decide)),
   classify_status_spec.2 "Billetter til koncerten" (by decide) (by decide)⟩

/-! ## Extractor container selection -/

/-- An HTML element as far as container selection sees it: its tag, its
  `class` attribute, and the CSS selectors of the site table that match it
  (CSS matching itself is outside the model and kept abstract per
  element). -/
structure Element where
  tag : String
  className : String
  selectorMatches : List String
  deriving DecidableEq, Repr

/-- The `container` rows of the `site_selectors` table of
  `extract_items_from_html` (lines 130-161), in dict order. -/
def site_container_selectors : List (String × List String) :=
  [("ebay", ["div.s-item__wrapper", "li.s-item"]),
   ("lauritz", ["div.lot-card", "article.lot-card", "div.ListingCard"]),
   ("barnebys", [".item", ".product-card", ".lot-card", "article"]),
   ("bruun", [".lot-item", ".auction-item", "article"]),
   ("dba", [".listing-item", "tr[data-href]", "article"]),
   ("default", ["article", "div.item", "div.lot", "li.result"])]

/-- Embeds the site-key dispatch (lines 163-168): the first non-default key
  occurring as a substring of the lowered site name wins, else `default`. -/
def site_key_for (site_name : String) : String :=
  match site_container_selectors.find?
      (fun kv => kv.1 != "default" && pyContains (pyLower site_name) kv.1) with
  | some kv => kv.1
  | none => "default"

/-- The container selector list used for a site (line 170). -/
def container_selectors_for (site_name : String) : List String :=
  match site_container_selectors.find?
      (fun kv => kv.1 == site_key_for site_name) with
  | some kv => kv.2
  | none => []

/-- `soup.select(sel)` in the model: the elements matching the selector. -/
def select_elements (soup : List Element) (sel : String) : List Element :=
  soup.filter (fun e => e.selectorMatches.contains sel)

/-- Embeds the selector loop (lines 173-177): the first container selector
  returning a non-empty list wins; no merging across selectors. -/
def first_nonempty_selection (soup : List Element) :
    List String → List Element
  | [] => []
  | sel :: rest =>
    let r := select_elements soup sel
    if r.isEmpty then first_nonempty_selection soup rest else r

/-- The keyword alternatives of the fallback class regex
  `re.compile(r'(item|lot|listing|product|result)', re.I)` at line 182. -/
def fallback_keywords : List String :=
  ["item", "lot", "listing", "product", "result"]

/-- The fallback class test: `re.search` of the alternation, case
  insensitive, anywhere in the class attribute. -/
def fallback_class_matches (cls : String) : Bool :=
  fallback_keywords.any (fun k => pyContains (pyLower cls) k)

/-- Embeds the container search of `extract_items_from_html` (lines
  172-182): try each container selector in order; when every one matches
  nothing, fall back to `find_all(['article', 'div'], class_=...)[:30]`
  with the keyword regex of line 182. -/
def find_containers (site_name : String) (soup : List Element) :
    List Element :=
  let containers :=
    first_nonempty_selection soup (container_selectors_for site_name)
  if containers.isEmpty then
    (soup.filter (fun e =>
      (e.tag == "article" || e.tag == "div") &&
        fallback_class_matches e.className)).take 30
  else containers

/-- The fallback keyword set as C7 states it — the spec's pattern
  `item|lot|listing|product|result|event|concert|show` — for comparison
  with the code's `fallback_keywords`. -/
def claimed_fallback_keywords : List String :=
  ["item", "lot", "listing", "product", "result", "event", "concert", "show"]

/-- The class test the claim describes. -/
def claimed_class_matches (cls : String) : Bool :=
  claimed_fallback_keywords.any (fun k => pyContains (pyLower cls) k)

/-- If no selector of the list matches any element, the selector loop comes
  back empty. -/
theorem first_nonempty_selection_nil (soup : List Element) :
    ∀ sels : List String,
      (∀ sel ∈ sels, ∀ e ∈ soup, sel ∉ e.selectorMatches) →
      first_nonempty_selection soup sels = [] := by
  intro sels
  induction sels with
  | nil => intro _; rfl
  | cons s rest ih =>
    intro h
    rw [first_nonempty_selection]
    have hsel : select_elements soup s = [] := by
      rw [select_elements, List.filter_eq_nil_iff]
      intro e he
      simp
      exact h s (List.mem_cons_self s rest) e he
    rw [hsel]
    simp only [List.isEmpty_nil, if_true]
    exact ih (fun sel hs e he => h sel (List.mem_cons_of_mem _ hs) e he)

/-! ### C7 -/

/-- Counterexample for C7 as stated: a `div` with class `event-card`
  matches the claimed pattern (keyword `event`), but the code's fallback
  regex at line 182 has no `event|concert|show` alternatives, so the
  fallback selects nothing from such a soup. -/
theorem fallback_keywords_counterexample :
    claimed_class_matches "event-card" = true
    ∧ fallback_class_matches "event-card" = false
    ∧ find_containers "Billetlugen" [⟨"div", "event-card", []⟩] = [] := by
  decide

/-- C7 (amended): when no container selector of the site's list matches any
  element, the extractor falls back to the elements of tag `article` or
  `div` whose class attribute matches the case-insensitive keyword pattern
  `item|lot|listing|product|result` — without the `event|concert|show`
  alternatives the claim adds — capped at 30 elements. -/
theorem find_containers_fallback :
    ∀ (site_name : String) (soup : List Element),
      (∀ sel ∈ container_selectors_for site_name, ∀ e ∈ soup,
          sel ∉ e.selectorMatches) →
      find_containers site_name soup =
        (soup.filter (fun e =>
          (e.tag == "article" || e.tag == "div") &&
            fallback_class_matches e.className)).take 30
      ∧ ∀ e ∈ find_containers site_name soup,
          (e.tag = "article" ∨ e.tag = "div")
          ∧ fallback_class_matches e.className = true := by
  intro site_name soup h
  have h0 := first_nonempty_selection_nil soup
    (container_selectors_for site_name) h
  have hmain : find_containers site_name soup =
      (soup.filter (fun e =>
        (e.tag == "article" || e.tag == "div") &&
          fallback_class_matches e.className)).take 30 := by
    simp only [find_containers, h0, List.isEmpty_nil, if_true]
  refine ⟨hmain, ?_⟩
  intro e he
  rw [hmain] at he
  have he' := List.mem_of_mem_take he
  rw [List.mem_filter] at he'
  obtain ⟨-, hcond⟩ := he'
  simp only [Bool.and_eq_true, Bool.or_eq_true, beq_iff_eq] at hcond
  exact ⟨hcond.1, hcond.2⟩

/-- A concrete element the fallback keeps. -/
def sampleDivItem : Element :=
  { tag := "div", className := "item-card", selectorMatches := [] }

/-- Closed witness for C7's amended theorem on a one-element soup no
  selector matches. -/
theorem find_containers_fallback_witness :
    find_containers "Billetlugen" [sampleDivItem] =
      (([sampleDivItem] : List Element).filter (fun e =>
        (e.tag == "article" || e.tag == "div") &&
          fallback_class_matches e.className)).take 30
    ∧ ∀ e ∈ find_containers "Billetlugen" [sampleDivItem],
        (e.tag = "article" ∨ e.tag = "div")
        ∧ fallback_class_matches e.className = true :=
  find_containers_fallback "Billetlugen" [sampleDivItem] (by decide)
